import Mathlib

/-!
Verification of the Fi MCP server core (file `function.go`, package `main`):
the authenticated tool-invocation gateway.  The Go source is shallowly
embedded: the ambient filesystem and environment become explicit parameters,
the session map becomes a function `String → Option String`, and each HTTP /
tool handler becomes a pure function from (environment, state, request) to
(response, new state).
-/

namespace FiMCP

/-- One entry returned by `os.ReadDir`: a name and whether it is a directory. -/
structure DirEntry where
  name : String
  isDir : Bool
deriving Repr, DecidableEq

/-- The ambient environment of the process: the working-directory filesystem
(`os.ReadDir` / `os.ReadFile`) and the embedded `static/*` bundle
(`staticFiles.ReadFile`).  `none` models the error return of the Go call. -/
structure FS where
  readDir : String → Option (List DirEntry)
  readFile : String → Option String
  staticRead : String → Option String

/-- `mcp.CallToolResult`: `NewToolResultText t` is `⟨t, false⟩`,
`NewToolResultError msg` is `⟨msg, true⟩`. -/
structure CallToolResult where
  text : String
  isError : Bool
deriving Repr, DecidableEq

/-- The session store `map[string]string` of `AuthMiddleware`, as a lookup
function; `none` models a key that is absent from the map. -/
def SessionStore : Type := String → Option String

/-- The empty map made by `NewAuthMiddleware` (`make(map[string]string)`). -/
def emptyStore : SessionStore := fun _ => none

/-- `AuthMiddleware.AddSession`: `m.sessionStore[sessionId] = phoneNumber`,
a map assignment (insert or overwrite). -/
def AddSession (s : SessionStore) (sessionId phoneNumber : String) : SessionStore :=
  fun k => if k = sessionId then some phoneNumber else s k

/-- `GetAllowedMobileNumbers`: list `test_data_dir`, return the names of the
directory entries; on a read error Go returns `nil`, which behaves as the
empty list everywhere it is consumed (`lo.Contains`, `len`, template range). -/
def GetAllowedMobileNumbers (fs : FS) : List String :=
  match fs.readDir "test_data_dir" with
  | none => []
  | some entries => (entries.filter (fun e => e.isDir)).map (fun e => e.name)

/-- `AuthMiddleware.getLoginUrl`: use `FUNCTION_URL` when the environment
variable is non-empty (`os.Getenv` yields `""` when unset), else the
placeholder base. -/
def getLoginUrl (functionURL sessionId : String) : String :=
  if functionURL ≠ "" then
    functionURL ++ "/mockWebPage?sessionId=" ++ sessionId
  else
    "https://YOUR-FUNCTION-URL/mockWebPage?sessionId=" ++ sessionId

/-- The Go raw-string template `loginRequiredJson` with `%s` substituted by
the login url (`fmt.Sprintf`).  In the Go raw string the two-character
sequences backslash-n are literal, hence `\\n` here. -/
def loginRequiredJson (loginUrl : String) : String :=
  "\x7b\"status\": \"login_required\",\"login_url\": \"" ++ loginUrl ++
    "\",\"message\": \"Needs to login first by going to the login url.\\nShow the login url as clickable link if client supports it. Otherwise display the URL for users to copy and paste into a browser. \\nAsk users to come back and let you know once they are done with login in their browser\"\x7d"

/-- Outcome of one run of the wrapped tool handler: the `*mcp.CallToolResult`,
the transport-level `error` second return value, and the list of dataset
paths passed to `os.ReadFile` during the run (the handler performs at most
one such read). -/
structure HandlerOutcome where
  result : CallToolResult
  transportErr : Option String
  fileReads : List String
deriving Repr, DecidableEq

/-- The closure returned by `AuthMiddleware.AuthMiddleware`.  It never calls
the wrapped `next` handler: every branch returns directly, so the behaviour
is fully determined by the session store, the filesystem, `FUNCTION_URL`, the
session id of the connection, and `req.Params.Name`. -/
def authMiddlewareHandle (fs : FS) (functionURL : String) (store : SessionStore)
    (sessionId toolName : String) : HandlerOutcome :=
  match store sessionId with
  | none =>
      { result := ⟨loginRequiredJson (getLoginUrl functionURL sessionId), false⟩
        transportErr := none
        fileReads := [] }
  | some phoneNumber =>
      if phoneNumber ∈ GetAllowedMobileNumbers fs then
        let path := "test_data_dir/" ++ phoneNumber ++ "/" ++ toolName ++ ".json"
        match fs.readFile path with
        | none =>
            { result := ⟨"error reading test data file", true⟩
              transportErr := none
              fileReads := [path] }
        | some data =>
            { result := ⟨data, false⟩
              transportErr := none
              fileReads := [path] }
      else
        { result := ⟨"phone number is not allowed", true⟩
          transportErr := none
          fileReads := [] }

/-- An HTTP response as observed by the client: status code and body.  For a
page produced by `template.Execute` the body is modelled as the template
file's content (no claim depends on the substituted output text, only on the
status code and on side effects). -/
structure HttpResponse where
  status : Nat
  body : String
deriving Repr, DecidableEq

/-- `webPageHandler` (GET `/mockWebPage`).  `r.URL.Query().Get("sessionId")`
returns `""` when the parameter is absent, so the empty string models a
missing parameter.  Templates are assumed syntactically valid (the
`template.Parse` error path fires only on malformed template text). -/
def webPageHandler (fs : FS) (sessionId : String) : HttpResponse :=
  if sessionId = "" then
    ⟨400, "sessionId is required"⟩
  else
    match fs.staticRead "static/login.html" with
    | none => ⟨500, "template read error"⟩
    | some t => ⟨200, t⟩

/-- A request to `/login` as seen through the accessors the handler uses:
`r.Method` and the two form values (`""` models an absent field). -/
structure LoginRequest where
  method : String
  sessionId : String
  phoneNumber : String
deriving Repr, DecidableEq

/-- `loginHandler` (POST `/login`): method check, field check, then
`authMiddleware.AddSession` (before the template is read, so the binding is
stored even when the success template is missing), then render
`static/login_successful.html`. -/
def loginHandler (fs : FS) (store : SessionStore) (req : LoginRequest) :
    HttpResponse × SessionStore :=
  if req.method ≠ "POST" then
    (⟨405, "Method not allowed"⟩, store)
  else if req.sessionId = "" ∨ req.phoneNumber = "" then
    (⟨400, "sessionId and phoneNumber are required"⟩, store)
  else
    let store2 := AddSession store req.sessionId req.phoneNumber
    match fs.staticRead "static/login_successful.html" with
    | none => (⟨500, "template read error"⟩, store2)
    | some t => (⟨200, t⟩, store2)

/-- `ToolInfo`: name and description of one advertised tool. -/
structure ToolInfo where
  name : String
  description : String
deriving Repr, DecidableEq

/-- The names of the six tools in `ToolList` (descriptions elided: no claim
mentions description text, and each tool is registered with the same shared
`dummyHandler` behind the one middleware). -/
def toolListNames : List String :=
  ["fetch_net_worth", "fetch_credit_report", "fetch_epf_details",
   "fetch_mf_transactions", "fetch_bank_transactions", "fetch_stock_transactions"]

/-- A concrete environment for evaluating the model: one allowed directory
`1111111111` with a canned `fetch_net_worth.json`, and both login templates
present in the static bundle. -/
def sampleFS : FS where
  readDir := fun p =>
    if p = "test_data_dir" then
      some [⟨"1111111111", true⟩, ⟨"notes.txt", false⟩]
    else none
  readFile := fun p =>
    if p = "test_data_dir/1111111111/fetch_net_worth.json" then
      some "sample net worth bytes"
    else none
  staticRead := fun p =>
    if p = "static/login.html" then some "<html>login form</html>"
    else if p = "static/login_successful.html" then some "<html>login successful</html>"
    else none

/-- An environment whose dataset root cannot be listed at all. -/
def noDirFS : FS where
  readDir := fun _ => none
  readFile := fun _ => none
  staticRead := fun _ => none

/-- An environment whose dataset root exists but holds no directories yet. -/
def emptyDataFS : FS where
  readDir := fun p => if p = "test_data_dir" then some [] else none
  readFile := fun _ => none
  staticRead := fun _ => none

/-- `emptyDataFS` after a directory `2222222222` is created under the
dataset root (no process restart: only the filesystem changed). -/
def grownDataFS : FS :=
  { emptyDataFS with
    readDir := fun p =>
      if p = "test_data_dir" then some [⟨"2222222222", true⟩] else none }

/-- C1: for every session id absent from the session store, any tool
invocation returns a normal (non-error, nil transport error) tool result
whose payload is the login-required JSON, and the embedded login url has
the form `base ++ "/mockWebPage?sessionId=" ++ sessionId` with that exact
session id. -/
theorem unbound_session_gets_login_required (fs : FS) (functionURL : String)
    (store : SessionStore) (sessionId toolName : String)
    (h : store sessionId = none) :
    (authMiddlewareHandle fs functionURL store sessionId toolName).transportErr = none ∧
    (authMiddlewareHandle fs functionURL store sessionId toolName).result.isError = false ∧
    (authMiddlewareHandle fs functionURL store sessionId toolName).result.text =
      loginRequiredJson (getLoginUrl functionURL sessionId) ∧
    ∃ base, getLoginUrl functionURL sessionId =
      base ++ "/mockWebPage?sessionId=" ++ sessionId := by
  refine ⟨by simp [authMiddlewareHandle, h], by simp [authMiddlewareHandle, h],
    by simp [authMiddlewareHandle, h], ?_⟩
  by_cases hf : functionURL = ""
  · exact ⟨"https://YOUR-FUNCTION-URL", by simp [getLoginUrl, hf]⟩
  · exact ⟨functionURL, by simp [getLoginUrl, hf]⟩

/-- Witness for C1 at the empty store, session `"abc"`. -/
theorem unbound_session_gets_login_required_witness :
    (authMiddlewareHandle sampleFS "" emptyStore "abc" "fetch_net_worth").transportErr = none ∧
    (authMiddlewareHandle sampleFS "" emptyStore "abc" "fetch_net_worth").result.isError = false ∧
    (authMiddlewareHandle sampleFS "" emptyStore "abc" "fetch_net_worth").result.text =
      loginRequiredJson (getLoginUrl "" "abc") ∧
    ∃ base, getLoginUrl "" "abc" = base ++ "/mockWebPage?sessionId=" ++ "abc" :=
  unbound_session_gets_login_required sampleFS "" emptyStore "abc" "fetch_net_worth" rfl

/-- C2: a disallowed identity (with both form fields non-empty, since an
empty form value is indistinguishable from an absent field and is the
malformed-request case) logs in successfully — 200 with the success page,
binding stored — and every subsequent tool call on that session returns the
authorization-denied error result with nil transport error. -/
theorem disallowed_identity_login_succeeds_then_denied
    (fs : FS) (functionURL : String) (store : SessionStore)
    (sessionId phoneNumber toolName : String)
    (hsid : sessionId ≠ "") (hpn : phoneNumber ≠ "")
    (hallow : phoneNumber ∉ GetAllowedMobileNumbers fs)
    (t : String)
    (htmpl : fs.staticRead "static/login_successful.html" = some t) :
    (loginHandler fs store ⟨"POST", sessionId, phoneNumber⟩).1.status = 200 ∧
    (loginHandler fs store ⟨"POST", sessionId, phoneNumber⟩).2 sessionId = some phoneNumber ∧
    (authMiddlewareHandle fs functionURL
        (loginHandler fs store ⟨"POST", sessionId, phoneNumber⟩).2 sessionId toolName).result =
      ⟨"phone number is not allowed", true⟩ ∧
    (authMiddlewareHandle fs functionURL
        (loginHandler fs store ⟨"POST", sessionId, phoneNumber⟩).2 sessionId toolName).transportErr =
      none := by
  have hs : (loginHandler fs store ⟨"POST", sessionId, phoneNumber⟩).2 sessionId =
      some phoneNumber := by
    simp [loginHandler, hsid, hpn, htmpl, AddSession]
  refine ⟨by simp [loginHandler, hsid, hpn, htmpl], hs, ?_, ?_⟩
  · simp [authMiddlewareHandle, hs, hallow]
  · simp [authMiddlewareHandle, hs, hallow]

/-- Witness for C2: session `"abc"`, phone `"0000000000"` (no such directory
in `sampleFS`). -/
theorem disallowed_identity_login_succeeds_then_denied_witness :
    (loginHandler sampleFS emptyStore ⟨"POST", "abc", "0000000000"⟩).1.status = 200 ∧
    (loginHandler sampleFS emptyStore ⟨"POST", "abc", "0000000000"⟩).2 "abc" =
      some "0000000000" ∧
    (authMiddlewareHandle sampleFS "" (loginHandler sampleFS emptyStore
        ⟨"POST", "abc", "0000000000"⟩).2 "abc" "fetch_net_worth").result =
      ⟨"phone number is not allowed", true⟩ ∧
    (authMiddlewareHandle sampleFS "" (loginHandler sampleFS emptyStore
        ⟨"POST", "abc", "0000000000"⟩).2 "abc" "fetch_net_worth").transportErr = none :=
  disallowed_identity_login_succeeds_then_denied sampleFS "" emptyStore
    "abc" "0000000000" "fetch_net_worth" (by decide) (by decide) (by decide)
    "<html>login successful</html>" (by decide)

/-- C3: a session bound to an allowed identity, calling a tool whose canned
file exists, receives exactly that file's bytes as a non-error result with
nil transport error; the handler takes no state to a new value (it returns
no updated store or filesystem), so a repeated call is the very same
application and returns the same bytes. -/
theorem allowed_identity_gets_exact_file_bytes
    (fs : FS) (functionURL : String) (store : SessionStore)
    (sessionId phoneNumber toolName data : String)
    (hb : store sessionId = some phoneNumber)
    (hallow : phoneNumber ∈ GetAllowedMobileNumbers fs)
    (hfile : fs.readFile
        ("test_data_dir/" ++ phoneNumber ++ "/" ++ toolName ++ ".json") = some data) :
    (authMiddlewareHandle fs functionURL store sessionId toolName).result = ⟨data, false⟩ ∧
    (authMiddlewareHandle fs functionURL store sessionId toolName).transportErr = none := by
  constructor <;> simp [authMiddlewareHandle, hb, hallow, hfile]

/-- Witness for C3: the bound session `"abc"` with phone `"1111111111"`
reads its canned `fetch_net_worth.json` from `sampleFS`. -/
theorem allowed_identity_gets_exact_file_bytes_witness :
    (authMiddlewareHandle sampleFS "" (AddSession emptyStore "abc" "1111111111")
        "abc" "fetch_net_worth").result = ⟨"sample net worth bytes", false⟩ ∧
    (authMiddlewareHandle sampleFS "" (AddSession emptyStore "abc" "1111111111")
        "abc" "fetch_net_worth").transportErr = none :=
  allowed_identity_gets_exact_file_bytes sampleFS "" (AddSession emptyStore "abc" "1111111111")
    "abc" "1111111111" "fetch_net_worth" "sample net worth bytes"
    (by decide) (by decide) (by decide)

/-- C4 counterexample: a second POST login on the same session id with a
different phone number does change the bound identity — after binding
`"s1" ↦ "1111111111"` a second login with `"2222222222"` leaves the store
at `"2222222222"`, not the original binding. -/
theorem second_login_overwrites_binding_cex :
    ((loginHandler sampleFS
        ((loginHandler sampleFS emptyStore ⟨"POST", "s1", "1111111111"⟩).2)
        ⟨"POST", "s1", "2222222222"⟩).2) "s1" = some "2222222222" ∧
    ((loginHandler sampleFS
        ((loginHandler sampleFS emptyStore ⟨"POST", "s1", "1111111111"⟩).2)
        ⟨"POST", "s1", "2222222222"⟩).2) "s1" ≠ some "1111111111" := by
  constructor <;> decide

/-- C4 as amended: the binding for a session id is always the phone number
of the most recent successful login submission for that id — a later POST
login overwrites it, so it is unchanged exactly when the same number is
resubmitted. -/
theorem login_rebind_latest_wins
    (fs : FS) (store : SessionStore) (sessionId q : String)
    (hsid : sessionId ≠ "") (hq : q ≠ "") :
    ((loginHandler fs store ⟨"POST", sessionId, q⟩).2) sessionId = some q := by
  unfold loginHandler
  simp only [hsid, hq]
  cases h : fs.staticRead "static/login_successful.html" <;>
    simp [h, AddSession]

/-- Witness for the amended C4: rebinding `"s1"` from `"1111111111"` to
`"2222222222"` yields `"2222222222"`. -/
theorem login_rebind_latest_wins_witness :
    ((loginHandler sampleFS
        ((loginHandler sampleFS emptyStore ⟨"POST", "s1", "1111111111"⟩).2)
        ⟨"POST", "s1", "2222222222"⟩).2) "s1" = some "2222222222" :=
  login_rebind_latest_wins sampleFS
    ((loginHandler sampleFS emptyStore ⟨"POST", "s1", "1111111111"⟩).2)
    "s1" "2222222222" (by decide) (by decide)

/-- C6: with the session bound and the identity not among the directories
listed before, the call is denied; after a directory of that name is added
under the dataset root (`fs2` lists the old entries plus a new directory
entry), the very next call on the unchanged store is no longer denied and
proceeds to read exactly that identity's dataset file. -/
theorem allowed_set_recomputed_per_call
    (fs fs2 : FS) (functionURL : String) (store : SessionStore)
    (sessionId phoneNumber toolName : String) (entries : List DirEntry)
    (hb : store sessionId = some phoneNumber)
    (h1 : phoneNumber ∉ GetAllowedMobileNumbers fs)
    (hd2 : fs2.readDir "test_data_dir" = some (entries ++ [⟨phoneNumber, true⟩])) :
    (authMiddlewareHandle fs functionURL store sessionId toolName).result =
      ⟨"phone number is not allowed", true⟩ ∧
    (authMiddlewareHandle fs2 functionURL store sessionId toolName).result ≠
      ⟨"phone number is not allowed", true⟩ ∧
    (authMiddlewareHandle fs2 functionURL store sessionId toolName).fileReads =
      ["test_data_dir/" ++ phoneNumber ++ "/" ++ toolName ++ ".json"] := by
  have h2 : phoneNumber ∈ GetAllowedMobileNumbers fs2 := by
    simp [GetAllowedMobileNumbers, hd2]
  refine ⟨by simp [authMiddlewareHandle, hb, h1], ?_, ?_⟩
  · cases hf : fs2.readFile
        ("test_data_dir/" ++ phoneNumber ++ "/" ++ toolName ++ ".json") with
    | none => simp [authMiddlewareHandle, hb, h2, hf]
    | some d => simp [authMiddlewareHandle, hb, h2, hf]
  · cases hf : fs2.readFile
        ("test_data_dir/" ++ phoneNumber ++ "/" ++ toolName ++ ".json") with
    | none => simp [authMiddlewareHandle, hb, h2, hf]
    | some d => simp [authMiddlewareHandle, hb, h2, hf]

/-- Witness for C6: `"2222222222"` is denied against `emptyDataFS` and
passes the gate against `grownDataFS`, whose listing has gained that
directory. -/
theorem allowed_set_recomputed_per_call_witness :
    (authMiddlewareHandle emptyDataFS "" (AddSession emptyStore "s2" "2222222222")
        "s2" "fetch_net_worth").result = ⟨"phone number is not allowed", true⟩ ∧
    (authMiddlewareHandle grownDataFS "" (AddSession emptyStore "s2" "2222222222")
        "s2" "fetch_net_worth").result ≠ ⟨"phone number is not allowed", true⟩ ∧
    (authMiddlewareHandle grownDataFS "" (AddSession emptyStore "s2" "2222222222")
        "s2" "fetch_net_worth").fileReads =
      ["test_data_dir/" ++ "2222222222" ++ "/" ++ "fetch_net_worth" ++ ".json"] :=
  allowed_set_recomputed_per_call emptyDataFS grownDataFS ""
    (AddSession emptyStore "s2" "2222222222") "s2" "2222222222" "fetch_net_worth" []
    (by decide) (by decide) (by decide)

/-- C7: a session bound to an allowed identity calling a tool whose canned
file is missing receives the structured dataset-unavailable tool-level
error, with nil transport error (no crash, no transport failure). -/
theorem missing_canned_file_gives_read_error
    (fs : FS) (functionURL : String) (store : SessionStore)
    (sessionId phoneNumber toolName : String)
    (hb : store sessionId = some phoneNumber)
    (hallow : phoneNumber ∈ GetAllowedMobileNumbers fs)
    (hfile : fs.readFile
        ("test_data_dir/" ++ phoneNumber ++ "/" ++ toolName ++ ".json") = none) :
    (authMiddlewareHandle fs functionURL store sessionId toolName).result =
      ⟨"error reading test data file", true⟩ ∧
    (authMiddlewareHandle fs functionURL store sessionId toolName).transportErr = none := by
  constructor <;> simp [authMiddlewareHandle, hb, hallow, hfile]

/-- Witness for C7: `"1111111111"` is allowed in `sampleFS` but has no
`fetch_epf_details.json`. -/
theorem missing_canned_file_gives_read_error_witness :
    (authMiddlewareHandle sampleFS "" (AddSession emptyStore "abc" "1111111111")
        "abc" "fetch_epf_details").result = ⟨"error reading test data file", true⟩ ∧
    (authMiddlewareHandle sampleFS "" (AddSession emptyStore "abc" "1111111111")
        "abc" "fetch_epf_details").transportErr = none :=
  missing_canned_file_gives_read_error sampleFS "" (AddSession emptyStore "abc" "1111111111")
    "abc" "1111111111" "fetch_epf_details" (by decide) (by decide) (by decide)

/-- C8: the login endpoints reject malformed requests with plain HTTP
status codes — GET on the login page with the `sessionId` query parameter
absent gives 400; POST login with `sessionId` or `phoneNumber` missing
gives 400; any non-POST method on the login-submit path gives 405. -/
theorem login_endpoints_reject_malformed
    (fs : FS) (store : SessionStore) (m sessionId phoneNumber : String) :
    (webPageHandler fs "").status = 400 ∧
    (sessionId = "" ∨ phoneNumber = "" →
      (loginHandler fs store ⟨"POST", sessionId, phoneNumber⟩).1.status = 400) ∧
    (m ≠ "POST" →
      (loginHandler fs store ⟨m, sessionId, phoneNumber⟩).1.status = 405) := by
  refine ⟨by simp [webPageHandler], ?_, ?_⟩
  · intro hmiss
    simp [loginHandler, hmiss]
  · intro hm
    simp [loginHandler, hm]

/-- Witness for C8: missing query parameter, missing form field, and a GET
on the login-submit path, each at a concrete request. -/
theorem login_endpoints_reject_malformed_witness :
    (webPageHandler sampleFS "").status = 400 ∧
    (loginHandler sampleFS emptyStore ⟨"POST", "", "1111111111"⟩).1.status = 400 ∧
    (loginHandler sampleFS emptyStore ⟨"GET", "abc", "1111111111"⟩).1.status = 405 :=
  ⟨(login_endpoints_reject_malformed sampleFS emptyStore "GET" "" "1111111111").1,
   (login_endpoints_reject_malformed sampleFS emptyStore "GET" "" "1111111111").2.1
     (Or.inl rfl),
   (login_endpoints_reject_malformed sampleFS emptyStore "GET" "abc" "1111111111").2.2
     (by decide)⟩

/-- C9: any dataset path read during a tool invocation is reached only
with a bound identity that passed the allowed-set membership check, and is
exactly `test_data_dir/<identity>/<toolName>.json`, where the identity is
one of the directory names obtained by listing the dataset root; no other
string ever reaches the filesystem read. -/
theorem dataset_read_only_after_authorization
    (fs : FS) (functionURL : String) (store : SessionStore)
    (sessionId toolName path : String)
    (h : path ∈ (authMiddlewareHandle fs functionURL store sessionId toolName).fileReads) :
    ∃ p entries,
      store sessionId = some p ∧
      p ∈ GetAllowedMobileNumbers fs ∧
      fs.readDir "test_data_dir" = some entries ∧
      p ∈ (entries.filter (fun e => e.isDir)).map (fun e => e.name) ∧
      path = "test_data_dir/" ++ p ++ "/" ++ toolName ++ ".json" := by
  unfold authMiddlewareHandle at h
  cases hb : store sessionId with
  | none => rw [hb] at h; simp at h
  | some p =>
    rw [hb] at h
    by_cases hallow : p ∈ GetAllowedMobileNumbers fs
    · cases hd : fs.readDir "test_data_dir" with
      | none =>
        rw [GetAllowedMobileNumbers, hd] at hallow
        simp at hallow
      | some entries =>
        refine ⟨p, entries, rfl, hallow, rfl, ?_, ?_⟩
        · have := hallow
          rw [GetAllowedMobileNumbers, hd] at this
          exact this
        · simp only [hallow, if_pos] at h
          cases hf : fs.readFile
              ("test_data_dir/" ++ p ++ "/" ++ toolName ++ ".json") <;>
            · rw [hf] at h
              simpa using h
    · simp [hallow] at h

/-- Witness for C9: the one path read by the authorized call in the C3
scenario satisfies the characterization. -/
theorem dataset_read_only_after_authorization_witness :
    ∃ p entries,
      (AddSession emptyStore "abc" "1111111111") "abc" = some p ∧
      p ∈ GetAllowedMobileNumbers sampleFS ∧
      sampleFS.readDir "test_data_dir" = some entries ∧
      p ∈ (entries.filter (fun e => e.isDir)).map (fun e => e.name) ∧
      "test_data_dir/1111111111/fetch_net_worth.json" =
        "test_data_dir/" ++ p ++ "/" ++ "fetch_net_worth" ++ ".json" :=
  dataset_read_only_after_authorization sampleFS "" (AddSession emptyStore "abc" "1111111111")
    "abc" "fetch_net_worth" "test_data_dir/1111111111/fetch_net_worth.json" (by decide)

/-- C10: when listing the dataset root fails, the allowed set is empty and
every tool call on a bound session — whatever the bound identity — returns
the authorization-denied error with nil transport error: the gate fails
closed. -/
theorem readdir_failure_fails_closed
    (fs : FS) (functionURL : String) (store : SessionStore)
    (sessionId phoneNumber toolName : String)
    (hdir : fs.readDir "test_data_dir" = none)
    (hb : store sessionId = some phoneNumber) :
    GetAllowedMobileNumbers fs = [] ∧
    (authMiddlewareHandle fs functionURL store sessionId toolName).result =
      ⟨"phone number is not allowed", true⟩ ∧
    (authMiddlewareHandle fs functionURL store sessionId toolName).transportErr = none := by
  have hempty : GetAllowedMobileNumbers fs = [] := by
    rw [GetAllowedMobileNumbers, hdir]
  refine ⟨hempty, ?_, ?_⟩ <;> simp [authMiddlewareHandle, hb, hempty]

/-- Witness for C10: `noDirFS` has no listable dataset root; the bound
session `"s3" ↦ "1111111111"` is denied. -/
theorem readdir_failure_fails_closed_witness :
    GetAllowedMobileNumbers noDirFS = [] ∧
    (authMiddlewareHandle noDirFS "" (AddSession emptyStore "s3" "1111111111")
        "s3" "fetch_net_worth").result = ⟨"phone number is not allowed", true⟩ ∧
    (authMiddlewareHandle noDirFS "" (AddSession emptyStore "s3" "1111111111")
        "s3" "fetch_net_worth").transportErr = none :=
  readdir_failure_fails_closed noDirFS "" (AddSession emptyStore "s3" "1111111111")
    "s3" "1111111111" "fetch_net_worth" rfl (by decide)

end FiMCP
